import Mathlib

/-!
Verification of the reactive callback layer of the neighborhoodtrafficflow
dashboard (two application variants: `neighborhoodtrafficflow/app.py` and
`neighborhood-traffic-flow/app.py`).  The callback bodies are shallowly
embedded: Python values flowing through a callback are modelled by `PyVal`,
Python subscripting (`x[k]`) by `getItem` returning `Except PyErr PyVal`,
and each callback function by a Lean function of the same name.
The Dash wiring (which component property each callback reads and writes,
taken from the `@APP.callback` decorators) is embedded as a concrete table
of `Callback` records.
-/

-- Decidable equality for `Except` results, used to evaluate the
-- embedded callbacks on concrete payloads.
deriving instance DecidableEq for Except

/-- Python exception classes that subscripting can raise. -/
inductive PyErr where
  | typeError
  | keyError
  | indexError
deriving DecidableEq, Repr

mutual

/-- Python values that can appear in a Dash callback payload:
`None`, integers, strings, lists, and string-keyed dicts. -/
inductive PyVal where
  | none
  | int (n : Int)
  | str (s : String)
  | list (xs : PyList)
  | dict (es : PyDict)
deriving DecidableEq, Repr

/-- A Python list of `PyVal`s. -/
inductive PyList where
  | nil
  | cons (x : PyVal) (xs : PyList)
deriving DecidableEq, Repr

/-- A Python dict with string keys and `PyVal` values. -/
inductive PyDict where
  | nil
  | cons (k : String) (v : PyVal) (es : PyDict)
deriving DecidableEq, Repr

end

/-- Length of a Python list. -/
def PyList.length : PyList → Nat
  | .nil => 0
  | .cons _ xs => xs.length + 1

/-- Zero-based element access in a Python list. -/
def PyList.get? : PyList → Nat → Option PyVal
  | .nil, _ => Option.none
  | .cons x _, 0 => some x
  | .cons _ xs, n + 1 => xs.get? n

/-- Lookup of a string key in a Python dict (first matching entry). -/
def PyDict.lookup : PyDict → String → Option PyVal
  | .nil, _ => Option.none
  | .cons k v es, key => if k == key then some v else es.lookup key

/-- Python subscripting `container[key]`, with Python error semantics:
a dict raises `KeyError` for a missing hashable key and `TypeError` for an
unhashable one; a list or string accepts integer indices, negative indices
counting from the end, raising `IndexError` out of range and `TypeError`
for non-integer indices; `None` and integers are not subscriptable
(`TypeError`). -/
def getItem : PyVal → PyVal → Except PyErr PyVal
  | .dict es, .str k =>
      match es.lookup k with
      | some v => .ok v
      | Option.none => .error .keyError
  | .dict _, .none => .error .keyError
  | .dict _, .int _ => .error .keyError
  | .dict _, .list _ => .error .typeError
  | .dict _, .dict _ => .error .typeError
  | .list xs, .int n =>
      let m : Int := if n < 0 then n + (xs.length : Int) else n
      if m < 0 then .error .indexError
      else
        match xs.get? m.toNat with
        | some v => .ok v
        | Option.none => .error .indexError
  | .list _, _ => .error .typeError
  | .str s, .int n =>
      let m : Int := if n < 0 then n + (s.length : Int) else n
      if m < 0 then .error .indexError
      else
        match s.toList.get? m.toNat with
        | some c => .ok (.str (String.mk [c]))
        | Option.none => .error .indexError
  | .str _, _ => .error .typeError
  | .none, _ => .error .typeError
  | .int _, _ => .error .typeError

/-- The index extraction `selected_data[\x27points\x27][0][\x27pointIndex\x27]`
performed inside the `try` block of both variants of `update_dropdown`. -/
def extractPointIndex (selected_data : PyVal) : Except PyErr PyVal := do
  let points ← getItem selected_data (.str "points")
  let first ← getItem points (.int 0)
  getItem first (.str "pointIndex")

/-- Callback `update_dropdown` of `neighborhoodtrafficflow/app.py`:
`try: return selected_data[\x27points\x27][0][\x27pointIndex\x27]
except TypeError: return 92`.  Only `TypeError` is caught; any other
exception propagates out of the callback. -/
def update_dropdown (selected_data : PyVal) : Except PyErr PyVal :=
  match extractPointIndex selected_data with
  | .ok v => .ok v
  | .error .typeError => .ok (.int 92)
  | .error e => .error e

mutual

/-- Python `repr` of a value, as used by `str` on list and dict elements.
String quoting uses single quotes as CPython does for strings without
special characters. -/
def pyRepr : PyVal → String
  | .none => "None"
  | .int n => toString n
  | .str s => "\x27" ++ s ++ "\x27"
  | .list xs => "[" ++ pyReprSeq xs ++ "]"
  | .dict es => "\x7b" ++ pyReprEntries es ++ "\x7d"

/-- Comma-separated `repr`s of the elements of a Python list. -/
def pyReprSeq : PyList → String
  | .nil => ""
  | .cons x .nil => pyRepr x
  | .cons x xs => pyRepr x ++ ", " ++ pyReprSeq xs

/-- Comma-separated `repr`s of the entries of a Python dict. -/
def pyReprEntries : PyDict → String
  | .nil => ""
  | .cons k v .nil => "\x27" ++ k ++ "\x27: " ++ pyRepr v
  | .cons k v es => "\x27" ++ k ++ "\x27: " ++ pyRepr v ++ ", " ++ pyReprEntries es

end

/-- Python `str(x)`: a string prints as itself, every other value prints
as its `repr`. -/
def pyStr : PyVal → String
  | .str s => s
  | v => pyRepr v

/-- Callback `update_dropdown` of `neighborhood-traffic-flow/app.py`:
`try: return str(selected_data[\x27points\x27][0][\x27pointIndex\x27])
except TypeError: return \x2792\x27`.  Identical extraction to the other
variant, but the result is passed through `str` and the fallback is the
string literal. -/
def update_dropdown_v2 (selected_data : PyVal) : Except PyErr PyVal :=
  match extractPointIndex selected_data with
  | .ok v => .ok (.str (pyStr v))
  | .error .typeError => .ok (.str "92")
  | .error e => .error e

/-- Conversion of the `NAMES` list (a Python list of neighborhood display
names, loaded from the pickled data file) into a `PyVal` list. -/
def PyList.ofStrings : List String → PyList
  | [] => .nil
  | s :: rest => .cons (.str s) (ofStrings rest)

/-- Python string concatenation `x + suffix`: raises `TypeError` when the
left operand is not a string. -/
def pyAddSuffix (x : PyVal) (suffix : String) : Except PyErr String :=
  match x with
  | .str s => .ok (s ++ suffix)
  | _ => .error .typeError

/-- Callback `update_road_map_title` of `neighborhoodtrafficflow/app.py`:
`return NAMES[neighborhood] + \x27 Roads\x27`.  The `NAMES` list itself is
data loaded at startup, so it is a parameter here. -/
def update_road_map_title (names : List String) (neighborhood : PyVal) :
    Except PyErr String :=
  getItem (.list (PyList.ofStrings names)) neighborhood >>=
    fun v => pyAddSuffix v " Roads"

/-- Callback `update_flow_count_title` of `neighborhoodtrafficflow/app.py`:
`return NAMES[neighborhood] + \x27 Flow Counts\x27`. -/
def update_flow_count_title (names : List String) (neighborhood : PyVal) :
    Except PyErr String :=
  getItem (.list (PyList.ofStrings names)) neighborhood >>=
    fun v => pyAddSuffix v " Flow Counts"

/-- Callback `update_speed_limit_title` of `neighborhoodtrafficflow/app.py`:
`return NAMES[neighborhood] + \x27 Speed Limits\x27`. -/
def update_speed_limit_title (names : List String) (neighborhood : PyVal) :
    Except PyErr String :=
  getItem (.list (PyList.ofStrings names)) neighborhood >>=
    fun v => pyAddSuffix v " Speed Limits"

/-- Callback `update_road_type_title` of `neighborhoodtrafficflow/app.py`:
`return NAMES[neighborhood] + \x27 Road Types\x27`. -/
def update_road_type_title (names : List String) (neighborhood : PyVal) :
    Except PyErr String :=
  getItem (.list (PyList.ofStrings names)) neighborhood >>=
    fun v => pyAddSuffix v " Road Types"

/-- Callback `update_slider` of `neighborhoodtrafficflow/app.py`:
`if map_type == \x27flow\x27: return \x7b\x27display\x27: \x27inline\x27\x7d`
and otherwise
`return \x7b\x27display\x27: \x27none\x27\x7d`.  The returned CSS dict is
modelled as an association list. -/
def update_slider (map_type : PyVal) : List (String × String) :=
  if map_type = .str "flow" then [("display", "inline")]
  else [("display", "none")]

/-- Dash asset URL resolution `APP.get_asset_url(name)` (external
collaborator; default assets route). -/
def get_asset_url (name : String) : String := "/assets/" ++ name

/-- Callback `update_legend` of `neighborhood-traffic-flow/app.py`: returns
the flow legend asset for `flow`, the speed legend asset for `speed`, and
the road legend asset for anything else. -/
def update_legend (map_type : PyVal) : String :=
  if map_type = .str "flow" then get_asset_url "flowLabel.png"
  else if map_type = .str "speed" then get_asset_url "speedLabel.png"
  else get_asset_url "roadLabel.png"

/-- A street segment record of the Dataset Store (spec section 3):
owning neighborhood id, road-type category, optional speed limit, and a
sparse per-year traffic-flow count table. -/
structure StreetSegment where
  nbhd : Nat
  roadType : Nat
  speedLimit : Option Nat
  flowCounts : List (Nat × Nat)
deriving DecidableEq, Repr

/-- Styling assigned to one segment of the road-map chart, by map type. -/
inductive SegStyle where
  | flowColor (count : Nat)
  | speedColor (limit : Option Nat)
  | roadColor (category : Nat)
deriving DecidableEq, Repr

/-- Lookup of the flow count recorded for a given year on a segment. -/
def lookupYear : List (Nat × Nat) → Nat → Option Nat
  | [], _ => Option.none
  | (y, c) :: rest, year => if y == year then some c else lookupYear rest year

/-- Modelled from the spec: the figure builder
`neighborhoodtrafficflow.figures.maps.road_map` is not under `src/` (only
its caller `update_road_map` is), so it is modelled from spec section 4.1:
filter the street segments to the selected neighborhood (all segments when
no selection); for map type `flow` keep only segments with a non-null flow
count for the given year and color by that count; for `speed` color by
speed limit; for `road` color by road-type category. -/
def road_map (data : List StreetSegment) (selected : Option Nat)
    (map_type : String) (year : Nat) : List (StreetSegment × SegStyle) :=
  let rows : List StreetSegment := match selected with
    | some n => data.filter (fun s => s.nbhd == n)
    | Option.none => data
  if map_type == "flow" then
    rows.filterMap (fun s =>
      (lookupYear s.flowCounts year).map (fun c => (s, .flowColor c)))
  else if map_type == "speed" then
    rows.map (fun s => (s, .speedColor s.speedLimit))
  else
    rows.map (fun s => (s, .roadColor s.roadType))

/-- Callback `update_road_map` of `neighborhoodtrafficflow/app.py`:
`return road_map(STREET_DATA, neighborhood, map_type, year)`.  The street
table is a parameter since it is data loaded at startup. -/
def update_road_map (data : List StreetSegment) (neighborhood : Option Nat)
    (map_type : String) (year : Nat) : List (StreetSegment × SegStyle) :=
  road_map data neighborhood map_type year

/-- One `@APP.callback` registration: the component properties it writes
and the component properties it reads. -/
structure Callback where
  outputs : List (String × String)
  inputs : List (String × String)
deriving DecidableEq, Repr

/-- Decorator of `update_road_map_title`. -/
def roadMapTitleCb : Callback :=
  ⟨[("roadMapTitle", "children")], [("dropdown", "value")]⟩

/-- Decorator of `update_flow_count_title`. -/
def flowCountTitleCb : Callback :=
  ⟨[("flowCountTitle", "children")], [("dropdown", "value")]⟩

/-- Decorator of `update_speed_limit_title`. -/
def speedLimitTitleCb : Callback :=
  ⟨[("speedLimitTitle", "children")], [("dropdown", "value")]⟩

/-- Decorator of `update_road_type_title`. -/
def roadTypeTitleCb : Callback :=
  ⟨[("roadTypeTitle", "children")], [("dropdown", "value")]⟩

/-- Decorator of `update_dropdown` (the map-click handler). -/
def dropdownCb : Callback :=
  ⟨[("dropdown", "value")], [("neighborhoodMapFigure", "selectedData")]⟩

/-- Decorator of `update_slider` (the radio-change handler). -/
def sliderCb : Callback :=
  ⟨[("sliderContainer", "style")], [("radio", "value")]⟩

/-- Decorator of `update_neighborhood_map`. -/
def neighborhoodMapCb : Callback :=
  ⟨[("neighborhoodMapFigure", "figure")], [("dropdown", "value")]⟩

/-- Decorator of `update_road_map`. -/
def roadMapCb : Callback :=
  ⟨[("roadMapFigure", "figure")],
   [("dropdown", "value"), ("radio", "value"), ("slider", "value")]⟩

/-- Decorator of `update_traffic_flow_counts`. -/
def flowCountFigureCb : Callback :=
  ⟨[("flowCountFigure", "figure")], [("dropdown", "value")]⟩

/-- Decorator of `update_speed_limits`. -/
def speedLimitFigureCb : Callback :=
  ⟨[("speedLimitFigure", "figure")], [("dropdown", "value")]⟩

/-- Decorator of `update_road_types`. -/
def roadTypeFigureCb : Callback :=
  ⟨[("roadTypeFigure", "figure")], [("dropdown", "value")]⟩

/-- The complete callback table of `neighborhoodtrafficflow/app.py`, in
source order. -/
def appCallbacks : List Callback :=
  [roadMapTitleCb, flowCountTitleCb, speedLimitTitleCb, roadTypeTitleCb,
   dropdownCb, sliderCb, neighborhoodMapCb, roadMapCb, flowCountFigureCb,
   speedLimitFigureCb, roadTypeFigureCb]

/-- `YEAR_OPTIONS = \x7byear: str(year) for year in range(2007, 2019)\x7d`
from `neighborhoodtrafficflow/app.py`: the year-slider marks. -/
def YEAR_OPTIONS : List (Nat × String) :=
  (List.range' 2007 (2019 - 2007)).map (fun year => (year, toString year))

/-- The initial values declared on the interactive controls in
`APP.layout` of `neighborhoodtrafficflow/app.py`: the dropdown, the radio,
and the year slider. -/
structure LayoutControls where
  dropdownValue : PyVal
  radioValue : PyVal
  sliderMin : Int
  sliderMax : Int
  sliderMarks : List (Nat × String)
  sliderValue : Int

/-- The control declarations of `APP.layout`: `dcc.Dropdown(value=92)`,
`dcc.RadioItems(value=\x27flow\x27)`, and
`dcc.Slider(min=2007, max=2018, marks=YEAR_OPTIONS, value=2018)`. -/
def appLayoutControls : LayoutControls :=
  ⟨.int 92, .str "flow", 2007, 2018, YEAR_OPTIONS, 2018⟩

/-- The Control State of one session (spec section 3). -/
structure ControlState where
  neighborhood : PyVal
  mapType : PyVal
  year : Int
  sliderStyle : List (String × String)

/-- Effect of a radio (map-type) change on the Control State: the radio
holds the new map type and the `update_slider` callback rewrites the
slider container style; no callback writes the slider value or the
dropdown value on this event. -/
def applyRadio (s : ControlState) (t : PyVal) : ControlState :=
  { s with mapType := t, sliderStyle := update_slider t }

lemma PyList.ofStrings_length (l : List String) :
    (PyList.ofStrings l).length = l.length := by
  induction l with
  | nil => rfl
  | cons s rest ih => simp [PyList.ofStrings, PyList.length, ih]

lemma PyList.ofStrings_get? (l : List String) (n : Nat) :
    (PyList.ofStrings l).get? n = (l.get? n).map PyVal.str := by
  induction l generalizing n with
  | nil => cases n <;> rfl
  | cons s rest ih =>
      cases n with
      | zero => rfl
      | succ k => simpa [PyList.ofStrings, PyList.get?] using ih k

lemma getItem_ofStrings_nat (names : List String) (k : Nat)
    (h : k < names.length) :
    getItem (.list (PyList.ofStrings names)) (.int k) =
      .ok (.str (names.get ⟨k, h⟩)) := by
  have h0 : ¬ ((k : Int) < 0) := by omega
  simp only [getItem, PyList.ofStrings_length, PyList.ofStrings_get?]
  rw [if_neg h0, if_neg (by omega : ¬ ((k : Int) < 0))]
  rw [Int.toNat_ofNat, List.get?_eq_get h]
  rfl

lemma getItem_ofStrings_ok_iff (names : List String) (v : PyVal) :
    (∃ w, getItem (.list (PyList.ofStrings names)) v = .ok w) ↔
      (∃ n : Int, v = .int n ∧ -(names.length : Int) ≤ n ∧
        n < (names.length : Int)) := by
  cases v with
  | int n =>
      simp only [getItem, PyList.ofStrings_length, PyList.ofStrings_get?]
      by_cases hn : n < 0
      · rw [if_pos hn]
        by_cases hm : n + (names.length : Int) < 0
        · rw [if_pos hm]
          constructor
          · rintro ⟨w, hw⟩; cases hw
          · rintro ⟨n', hn', hlo, hhi⟩
            cases hn'
            omega
        · rw [if_neg hm]
          cases hg : names.get? (n + (names.length : Int)).toNat with
          | none =>
              rw [List.get?_eq_none] at hg
              constructor
              · rintro ⟨w, hw⟩; simp at hw
              · rintro ⟨n', hn', hlo, hhi⟩
                cases hn'
                omega
          | some s =>
              have hlt : (n + (names.length : Int)).toNat < names.length :=
                (List.get?_eq_some.mp hg).1
              constructor
              · intro _
                exact ⟨n, rfl, by omega, by omega⟩
              · intro _
                exact ⟨.str s, by simp [hg]⟩
      · rw [if_neg hn]
        by_cases hm : n < 0
        · omega
        · rw [if_neg hm]
          cases hg : names.get? n.toNat with
          | none =>
              rw [List.get?_eq_none] at hg
              constructor
              · rintro ⟨w, hw⟩; simp at hw
              · rintro ⟨n', hn', hlo, hhi⟩
                cases hn'
                omega
          | some s =>
              have hlt : n.toNat < names.length :=
                (List.get?_eq_some.mp hg).1
              constructor
              · intro _
                exact ⟨n, rfl, by omega, by omega⟩
              · intro _
                exact ⟨.str s, by simp [hg]⟩
  | none => simp [getItem]
  | str s => simp [getItem]
  | list xs => simp [getItem]
  | dict es => simp [getItem]

lemma getItem_ofStrings_str (names : List String) (v w : PyVal)
    (h : getItem (.list (PyList.ofStrings names)) v = .ok w) :
    ∃ s, w = .str s := by
  cases v with
  | int n =>
      simp only [getItem, PyList.ofStrings_length, PyList.ofStrings_get?] at h
      by_cases hn : n < 0
      · rw [if_pos hn] at h
        by_cases hm : n + (names.length : Int) < 0
        · rw [if_pos hm] at h; cases h
        · rw [if_neg hm] at h
          cases hg : names.get? (n + (names.length : Int)).toNat with
          | none => rw [hg] at h; cases h
          | some s => rw [hg] at h; cases h; exact ⟨s, rfl⟩
      · rw [if_neg hn] at h
        by_cases hm : n < 0
        · omega
        · rw [if_neg hm] at h
          cases hg : names.get? n.toNat with
          | none => rw [hg] at h; cases h
          | some s => rw [hg] at h; cases h; exact ⟨s, rfl⟩
  | none => simp [getItem] at h
  | str s => simp [getItem] at h
  | list xs => simp [getItem] at h
  | dict es => simp [getItem] at h

lemma title_bind_ok_iff (names : List String) (v : PyVal) (suffix : String) :
    (∃ t, (getItem (.list (PyList.ofStrings names)) v >>=
        fun w => pyAddSuffix w suffix) = .ok t) ↔
      (∃ n : Int, v = .int n ∧ -(names.length : Int) ≤ n ∧
        n < (names.length : Int)) := by
  rw [← getItem_ofStrings_ok_iff]
  constructor
  · rintro ⟨t, ht⟩
    cases hg : getItem (.list (PyList.ofStrings names)) v with
    | error e => rw [hg] at ht; simp [Bind.bind, Except.bind] at ht
    | ok w => exact ⟨w, rfl⟩
  · rintro ⟨w, hw⟩
    rcases getItem_ofStrings_str names v w hw with ⟨s, rfl⟩
    exact ⟨s ++ suffix, by simp [hw, Bind.bind, Except.bind, pyAddSuffix]⟩

/-- Claim C1 counterexample: the empty-dict selection payload is malformed
(it lacks the `points` field), yet `update_dropdown` raises `KeyError`
instead of returning the fallback neighborhood id 92, so the handler does
propagate an error for some malformed payload. -/
theorem C1_counterexample :
    update_dropdown (.dict .nil) = .error .keyError ∧
      update_dropdown (.dict .nil) ≠ .ok (.int 92) := by decide

/-- Claim C1 (amended): `update_dropdown` returns the fallback id 92
exactly for payloads whose index extraction raises `TypeError` (such as
the `None` payload of an empty click); a successful extraction is
returned unchanged, and any other exception (`KeyError` for a dict
missing the `points` or `pointIndex` field, `IndexError` for an empty
`points` list) propagates out of the handler. -/
theorem C1_fallback_only_on_typeError (sd : PyVal) :
    (extractPointIndex sd = .error .typeError →
      update_dropdown sd = .ok (.int 92)) ∧
    (∀ v, extractPointIndex sd = .ok v → update_dropdown sd = .ok v) ∧
    (∀ e, e ≠ .typeError → extractPointIndex sd = .error e →
      update_dropdown sd = .error e) := by
  refine ⟨fun h => ?_, fun v h => ?_, fun e he h => ?_⟩
  · simp [update_dropdown, h]
  · simp [update_dropdown, h]
  · cases e with
    | typeError => exact absurd rfl he
    | keyError => simp [update_dropdown, h]
    | indexError => simp [update_dropdown, h]

/-- Claim C1 witness: the `None` payload falls back to 92 and the
empty-dict payload propagates `KeyError`. -/
theorem C1_witness :
    update_dropdown PyVal.none = .ok (.int 92) ∧
      update_dropdown (.dict .nil) = .error .keyError :=
  ⟨(C1_fallback_only_on_typeError PyVal.none).1 (by decide),
   (C1_fallback_only_on_typeError (.dict .nil)).2.2 .keyError (by decide)
     (by decide)⟩

/-- Claim C2: when the selected map type is not `flow`, a year (slider)
change leaves the road-map output unchanged (the per-year flow filter is
the only use of the year), and no callback writes the slider value, so
the year is retained in Control State. -/
theorem C2_year_only_affects_flow (data : List StreetSegment)
    (sel : Option Nat) (map_type : String) (y1 y2 : Nat)
    (h : map_type ≠ "flow") :
    update_road_map data sel map_type y1 =
        update_road_map data sel map_type y2 ∧
      ∀ cb ∈ appCallbacks, ("slider", "value") ∉ cb.outputs := by
  constructor
  · have hb : (map_type == "flow") = false := beq_eq_false_iff_ne.mpr h
    simp [update_road_map, road_map, hb]
  · decide

/-- Claim C2 witness: with a one-segment table carrying only a 2018 flow
count, the speed map is identical for years 2007 and 2018. -/
theorem C2_witness :
    update_road_map [⟨1, 2, some 25, [(2018, 100)]⟩] (some 1) "speed" 2007 =
        update_road_map [⟨1, 2, some 25, [(2018, 100)]⟩] (some 1)
          "speed" 2018 ∧
      ∀ cb ∈ appCallbacks, ("slider", "value") ∉ cb.outputs :=
  C2_year_only_affects_flow _ _ _ _ _ (by decide)

/-- Claim C3: the map-click handler writes only the dropdown value (never
a figure property), every figure-producing callback reads the dropdown
value and not the map selection data, and no callback lists one of its
own outputs among its inputs, so no callback output feeds back into its
own inputs. -/
theorem C3_no_feedback :
    dropdownCb.outputs = [("dropdown", "value")] ∧
    (∀ cb ∈ appCallbacks, (∃ o ∈ cb.outputs, o.2 = "figure") →
      ("dropdown", "value") ∈ cb.inputs ∧
        ("neighborhoodMapFigure", "selectedData") ∉ cb.inputs) ∧
    (∀ cb ∈ appCallbacks, ∀ o ∈ cb.outputs, o ∉ cb.inputs) := by decide

/-- Claim C4: for a valid neighborhood index the four title callbacks
produce exactly the display name followed by their fixed suffixes, and
every figure-producing and every title-producing callback lists the
dropdown value among its inputs, so each is driven by the same selected
value. -/
theorem C4_titles_embed_name (names : List String) (k : Nat)
    (h : k < names.length) :
    update_road_map_title names (.int k) =
        .ok (names.get ⟨k, h⟩ ++ " Roads") ∧
    update_flow_count_title names (.int k) =
        .ok (names.get ⟨k, h⟩ ++ " Flow Counts") ∧
    update_speed_limit_title names (.int k) =
        .ok (names.get ⟨k, h⟩ ++ " Speed Limits") ∧
    update_road_type_title names (.int k) =
        .ok (names.get ⟨k, h⟩ ++ " Road Types") ∧
    (∀ cb ∈ appCallbacks, (∃ o ∈ cb.outputs, o.2 = "figure") →
      ("dropdown", "value") ∈ cb.inputs) ∧
    (∀ cb ∈ appCallbacks, (∃ o ∈ cb.outputs, o.2 = "children") →
      ("dropdown", "value") ∈ cb.inputs) := by
  refine ⟨?_, ?_, ?_, ?_, by decide, by decide⟩ <;>
    simp [update_road_map_title, update_flow_count_title,
      update_speed_limit_title, update_road_type_title,
      getItem_ofStrings_nat names k h, Bind.bind, Except.bind, pyAddSuffix]

/-- Claim C4 witness: with a one-name list the four titles embed that
name at index 0. -/
theorem C4_witness :
    update_road_map_title ["University District"] (.int 0) =
        .ok ("University District" ++ " Roads") ∧
    update_flow_count_title ["University District"] (.int 0) =
        .ok ("University District" ++ " Flow Counts") ∧
    update_speed_limit_title ["University District"] (.int 0) =
        .ok ("University District" ++ " Speed Limits") ∧
    update_road_type_title ["University District"] (.int 0) =
        .ok ("University District" ++ " Road Types") ∧
    (∀ cb ∈ appCallbacks, (∃ o ∈ cb.outputs, o.2 = "figure") →
      ("dropdown", "value") ∈ cb.inputs) ∧
    (∀ cb ∈ appCallbacks, (∃ o ∈ cb.outputs, o.2 = "children") →
      ("dropdown", "value") ∈ cb.inputs) :=
  C4_titles_embed_name ["University District"] 0 (by decide)

/-- Claim C5: `update_slider` returns the visible style exactly when the
map type equals `flow`, and the hidden style exactly otherwise. -/
theorem C5_slider_visibility (t : PyVal) :
    (update_slider t = [("display", "inline")] ↔ t = .str "flow") ∧
    (update_slider t = [("display", "none")] ↔ t ≠ .str "flow") := by
  by_cases h : t = .str "flow" <;> simp [update_slider, h]

/-- Claim C6: the radio-change handler writes only the slider container
style, no callback at all writes the slider value, and any sequence of
radio toggles leaves the year (and the selected neighborhood) of the
Control State unchanged. -/
theorem C6_year_preserved_across_toggles :
    sliderCb.outputs = [("sliderContainer", "style")] ∧
    (∀ cb ∈ appCallbacks, ("slider", "value") ∉ cb.outputs) ∧
    (∀ (s : ControlState) (ts : List PyVal),
      (ts.foldl applyRadio s).year = s.year ∧
        (ts.foldl applyRadio s).neighborhood = s.neighborhood) := by
  refine ⟨by decide, by decide, fun s ts => ?_⟩
  induction ts generalizing s with
  | nil => exact ⟨rfl, rfl⟩
  | cons t rest ih => simpa [List.foldl, applyRadio] using ih (applyRadio s t)

/-- Claim C7: the layout declares the initial Control State as dropdown
value 92, map type `flow`, year 2018, and the year slider ranges over
exactly the marks 2007 through 2018 inclusive. -/
theorem C7_initial_defaults :
    appLayoutControls.dropdownValue = .int 92 ∧
    appLayoutControls.radioValue = .str "flow" ∧
    appLayoutControls.sliderValue = 2018 ∧
    appLayoutControls.sliderMin = 2007 ∧
    appLayoutControls.sliderMax = 2018 ∧
    appLayoutControls.sliderMarks.map Prod.fst =
      [2007, 2008, 2009, 2010, 2011, 2012, 2013,
       2014, 2015, 2016, 2017, 2018] := by decide

/-- Claim C8 counterexample: on the `None` payload of an empty selection
the first variant returns the integer 92 while the second returns the
string "92"; these are distinct Python values, so the two handlers do not
produce the same selected-neighborhood value. -/
theorem C8_counterexample :
    update_dropdown PyVal.none = .ok (.int 92) ∧
    update_dropdown_v2 PyVal.none = .ok (.str "92") ∧
    (PyVal.int 92) ≠ (PyVal.str "92") := by decide

/-- Claim C8 (amended): for every selection payload the two variants
agree up to the `str` conversion the second variant applies to its
result: `update_dropdown_v2` returns exactly the `str` image of what
`update_dropdown` returns, and in particular the fallbacks correspond
(integer 92 versus string "92"). -/
theorem C8_variants_agree_up_to_str (sd : PyVal) :
    update_dropdown_v2 sd =
      (update_dropdown sd).map (fun v => PyVal.str (pyStr v)) := by
  unfold update_dropdown update_dropdown_v2
  cases h : extractPointIndex sd with
  | ok v => rfl
  | error e => cases e <;> rfl

/-- Claim C9: `update_legend` is a total function of the map-type value
(it cannot raise): it yields the flow legend asset for `flow`, the speed
legend asset for `speed`, and the road legend asset for every other
value, including values outside the enumerated set. -/
theorem C9_legend_total (v : PyVal) :
    update_legend (.str "flow") = get_asset_url "flowLabel.png" ∧
    update_legend (.str "speed") = get_asset_url "speedLabel.png" ∧
    (v ≠ .str "flow" → v ≠ .str "speed" →
      update_legend v = get_asset_url "roadLabel.png") := by
  refine ⟨by decide, by decide, fun h1 h2 => ?_⟩
  simp [update_legend, h1, h2]

/-- Claim C9 witness: an out-of-set map-type value (an integer) selects
the road legend asset. -/
theorem C9_witness :
    update_legend (.int 0) = get_asset_url "roadLabel.png" :=
  (C9_legend_total (.int 0)).2.2 (by decide) (by decide)

/-- Claim C10 counterexample: with a two-name list the dropdown value -1
lies outside [0, len), yet the road-map title callback completes without
error, returning the last name (Python list indexing accepts negative
indices), so completion is not equivalent to 0 ≤ N < len(NAMES). -/
theorem C10_counterexample :
    update_road_map_title ["A", "B"] (.int (-1)) = .ok "B Roads" ∧
    ¬ (0 ≤ (-1 : Int) ∧
        (-1 : Int) < ((["A", "B"] : List String).length : Int)) := by
  decide

/-- Claim C10 (amended): the four title callbacks index `NAMES` with no
bounds or type check; each completes without error exactly when the
dropdown value is an integer N with -len(NAMES) ≤ N < len(NAMES) (Python
indexing also accepts in-range negative indices).  Every non-integer
value and every integer outside that range raises, so the error branch is
reachable at the callback interface and a valid neighborhood id remains a
required precondition. -/
theorem C10_title_ok_iff_in_range (names : List String) (v : PyVal) :
    ((∃ t, update_road_map_title names v = .ok t) ↔
      (∃ n : Int, v = .int n ∧ -(names.length : Int) ≤ n ∧
        n < (names.length : Int))) ∧
    ((∃ t, update_flow_count_title names v = .ok t) ↔
      (∃ n : Int, v = .int n ∧ -(names.length : Int) ≤ n ∧
        n < (names.length : Int))) ∧
    ((∃ t, update_speed_limit_title names v = .ok t) ↔
      (∃ n : Int, v = .int n ∧ -(names.length : Int) ≤ n ∧
        n < (names.length : Int))) ∧
    ((∃ t, update_road_type_title names v = .ok t) ↔
      (∃ n : Int, v = .int n ∧ -(names.length : Int) ≤ n ∧
        n < (names.length : Int))) :=
  ⟨title_bind_ok_iff names v " Roads",
   title_bind_ok_iff names v " Flow Counts",
   title_bind_ok_iff names v " Speed Limits",
   title_bind_ok_iff names v " Road Types"⟩
